import Mathlib

/-!
Verification development for the lidar_data point-cloud pipeline.

The four logic modules are shallowly embedded:
  * `src/lib/colormaps.ts`     — `COLORMAPS`, `sampleColormap`
  * `src/lib/load-pointcloud.ts` — `loadPointCloud` (format check, subsampling,
    reprojection, bounds, origin, offset encoding, attribute copy)
  * `colorize.ts`              — `colorizePoints`, `CLASSIFICATION_COLORS`
  * `src/lib/cross-section.ts` — `getProfile`

Numeric conventions of the embedding: JavaScript double arithmetic is
modelled over `Rat` (exact rational arithmetic; IEEE rounding is out of
scope), byte buffers hold `Int` values, and the injected external
capabilities (proj4 `forward`, `Math.cos`, `Math.sqrt`) are explicit
function parameters.  JavaScript `Math.round` (round half toward plus
infinity) is `jsRound`.
-/

/-- JS `Math.round`: round half toward positive infinity. -/
def jsRound (q : Rat) : Int := ⌊q + 1/2⌋

/-- JS `Math.min` on numbers (NaN aside). -/
def jsMin (a b : Rat) : Rat := if a ≤ b then a else b

/-- JS `Math.max` on numbers (NaN aside). -/
def jsMax (a b : Rat) : Rat := if a ≤ b then b else a

/-- The names of the eleven registered colormaps (`ColormapName` in `types.ts`). -/
inductive ColormapName where
  | viridis | plasma | inferno | turbo | magma | cividis | jet | rainbow
  | coolwarm | terrain | gray
deriving DecidableEq, Fintype

/-- A color stop `[position, R, G, B]` from `colormaps.ts`. -/
structure ColorStop where
  pos : Rat
  r : Int
  g : Int
  b : Int
deriving DecidableEq

/-- The colormap catalogue `COLORMAPS` from `colormaps.ts`, stop for stop. -/
def COLORMAPS : ColormapName → List ColorStop
  | .viridis =>
    [⟨0, 68, 1, 84⟩, ⟨0.1, 72, 35, 116⟩, ⟨0.2, 64, 67, 135⟩, ⟨0.3, 52, 94, 141⟩,
     ⟨0.4, 41, 120, 142⟩, ⟨0.5, 32, 144, 140⟩, ⟨0.6, 34, 167, 132⟩, ⟨0.7, 68, 190, 112⟩,
     ⟨0.8, 121, 209, 81⟩, ⟨0.9, 189, 222, 38⟩, ⟨1, 253, 231, 37⟩]
  | .plasma =>
    [⟨0, 13, 8, 135⟩, ⟨0.1, 75, 3, 161⟩, ⟨0.2, 125, 3, 168⟩, ⟨0.3, 168, 34, 150⟩,
     ⟨0.4, 203, 70, 121⟩, ⟨0.5, 229, 107, 93⟩, ⟨0.6, 248, 148, 65⟩, ⟨0.7, 253, 195, 40⟩,
     ⟨0.8, 240, 228, 66⟩, ⟨0.9, 222, 244, 113⟩, ⟨1, 240, 249, 33⟩]
  | .inferno =>
    [⟨0, 0, 0, 4⟩, ⟨0.1, 22, 11, 57⟩, ⟨0.2, 66, 10, 104⟩, ⟨0.3, 106, 23, 110⟩,
     ⟨0.4, 147, 38, 103⟩, ⟨0.5, 188, 55, 84⟩, ⟨0.6, 221, 81, 58⟩, ⟨0.7, 243, 118, 27⟩,
     ⟨0.8, 252, 165, 10⟩, ⟨0.9, 246, 215, 70⟩, ⟨1, 252, 255, 164⟩]
  | .turbo =>
    [⟨0, 48, 18, 59⟩, ⟨0.1, 67, 85, 189⟩, ⟨0.2, 45, 150, 228⟩, ⟨0.3, 24, 196, 193⟩,
     ⟨0.4, 68, 227, 135⟩, ⟨0.5, 147, 244, 73⟩, ⟨0.6, 209, 234, 43⟩, ⟨0.7, 249, 195, 35⟩,
     ⟨0.8, 253, 141, 33⟩, ⟨0.9, 228, 74, 25⟩, ⟨1, 163, 16, 16⟩]
  | .magma =>
    [⟨0, 0, 0, 4⟩, ⟨0.1, 23, 11, 58⟩, ⟨0.2, 66, 15, 117⟩, ⟨0.3, 114, 31, 129⟩,
     ⟨0.4, 163, 50, 120⟩, ⟨0.5, 211, 67, 94⟩, ⟨0.6, 248, 107, 78⟩, ⟨0.7, 254, 155, 87⟩,
     ⟨0.8, 252, 205, 127⟩, ⟨0.9, 252, 253, 191⟩, ⟨1, 252, 253, 255⟩]
  | .cividis =>
    [⟨0, 0, 32, 77⟩, ⟨0.2, 0, 53, 107⟩, ⟨0.4, 65, 77, 107⟩, ⟨0.6, 124, 123, 120⟩,
     ⟨0.8, 190, 186, 118⟩, ⟨1, 255, 234, 70⟩]
  | .jet =>
    [⟨0, 0, 0, 128⟩, ⟨0.125, 0, 0, 255⟩, ⟨0.375, 0, 255, 255⟩, ⟨0.625, 255, 255, 0⟩,
     ⟨0.875, 255, 0, 0⟩, ⟨1, 128, 0, 0⟩]
  | .rainbow =>
    [⟨0, 0, 0, 255⟩, ⟨0.2, 0, 255, 255⟩, ⟨0.4, 0, 255, 0⟩, ⟨0.6, 255, 255, 0⟩,
     ⟨0.8, 255, 0, 0⟩, ⟨1, 255, 0, 255⟩]
  | .coolwarm =>
    [⟨0, 59, 76, 192⟩, ⟨0.25, 119, 154, 229⟩, ⟨0.5, 221, 221, 221⟩,
     ⟨0.75, 241, 142, 105⟩, ⟨1, 180, 4, 38⟩]
  | .terrain =>
    [⟨0, 51, 128, 51⟩, ⟨0.2, 102, 179, 102⟩, ⟨0.3, 179, 204, 102⟩, ⟨0.4, 204, 179, 102⟩,
     ⟨0.6, 179, 128, 77⟩, ⟨0.8, 204, 179, 153⟩, ⟨1, 255, 255, 255⟩]
  | .gray =>
    [⟨0, 0, 0, 0⟩, ⟨1, 255, 255, 255⟩]

/-- One channel of `r0 + (r1 - r0) * fraction`, rounded as JS `Math.round`. -/
def lerpChannel (a b : Int) (f : Rat) : Int := jsRound ((a : Rat) + ((b : Rat) - (a : Rat)) * f)

/-- The bracketing scan of `sampleColormap`: walk adjacent stop pairs and
interpolate inside the first pair `(pos0 ≤ t ≤ pos1)`. -/
def scanStops (t : Rat) : List ColorStop → Option (Int × Int × Int)
  | s0 :: s1 :: rest =>
    if s0.pos ≤ t ∧ t ≤ s1.pos then
      let f := (t - s0.pos) / (s1.pos - s0.pos)
      some (lerpChannel s0.r s1.r f, lerpChannel s0.g s1.g f, lerpChannel s0.b s1.b f)
    else scanStops t (s1 :: rest)
  | _ => none

/-- The fallback entry: the last stop of the list as an RGB triple
(`stops[stops.length - 1]`; all registered maps are nonempty). -/
def lastStopColor (stops : List ColorStop) : Int × Int × Int :=
  match stops.getLast? with
  | some s => (s.r, s.g, s.b)
  | none => (0, 0, 0)

/-- The first stop of the list (`stops[0]`) as an RGB triple. -/
def firstStopColor (stops : List ColorStop) : Int × Int × Int :=
  match stops.head? with
  | some s => (s.r, s.g, s.b)
  | none => (0, 0, 0)

/-- Function `sampleColormap` from `colormaps.ts`: clamp `t` to `[0,1]`, scan for a
bracketing stop pair and interpolate, else return the last stop's color. -/
def sampleColormap (name : ColormapName) (t : Rat) : Int × Int × Int :=
  let stops := COLORMAPS name
  let tc := jsMax 0 (jsMin 1 t)
  match scanStops tc stops with
  | some c => c
  | none => lastStopColor stops

example : sampleColormap .viridis 0 = (68, 1, 84) := by
  norm_num [sampleColormap, scanStops, COLORMAPS, jsMax, jsMin, lerpChannel, jsRound]
example : sampleColormap .viridis 1 = (253, 231, 37) := by
  norm_num [sampleColormap, scanStops, COLORMAPS, jsMax, jsMin, lerpChannel, jsRound]
example : sampleColormap .viridis 0.05 = (70, 18, 100) := by
  norm_num [sampleColormap, scanStops, COLORMAPS, jsMax, jsMin, lerpChannel, jsRound]

theorem jsRound_intCast (a : Int) : jsRound (a : Rat) = a := by
  unfold jsRound
  rw [Int.floor_int_add]
  norm_num

theorem lerpChannel_zero (a b : Int) : lerpChannel a b 0 = a := by
  unfold lerpChannel
  rw [mul_zero, add_zero, jsRound_intCast]

theorem lerpChannel_one (a b : Int) : lerpChannel a b 1 = b := by
  unfold lerpChannel
  rw [mul_one, add_sub_cancel, jsRound_intCast]

theorem clamp01_eq {t : Rat} (h0 : 0 ≤ t) (h1 : t ≤ 1) : jsMax 0 (jsMin 1 t) = t := by
  unfold jsMax jsMin
  split_ifs <;> linarith

/-- Scanning the bracketing pairs at the exact position of a member stop of a
strictly increasing stop list (of length at least two) yields that stop's color:
the interpolation fraction degenerates to `0` or `1`. -/
theorem scanStops_exact (l : List ColorStop)
    (hch : l.Chain' (fun a b => a.pos < b.pos)) :
    ∀ s ∈ l, 2 ≤ l.length → scanStops s.pos l = some (s.r, s.g, s.b) := by
  induction l with
  | nil => intro s hs; simp at hs
  | cons s0 tail ih =>
    intro s hs hlen
    rcases tail with _ | ⟨s1, rest⟩
    · simp at hlen
    · have h01 : s0.pos < s1.pos := (List.chain'_cons.mp hch).1
      have hchTail : (s1 :: rest).Chain' (fun a b => a.pos < b.pos) :=
        (List.chain'_cons.mp hch).2
      rcases List.mem_cons.mp hs with hs0 | hsTail
      · subst hs0
        have hcond : s.pos ≤ s.pos ∧ s.pos ≤ s1.pos := ⟨le_refl _, le_of_lt h01⟩
        simp only [scanStops, if_pos hcond, sub_self, zero_div,
          lerpChannel_zero]
      · rcases List.mem_cons.mp hsTail with hs1 | hsRest
        · subst hs1
          have hcond : s0.pos ≤ s.pos ∧ s.pos ≤ s.pos := ⟨le_of_lt h01, le_refl _⟩
          have hne : s.pos - s0.pos ≠ 0 := ne_of_gt (sub_pos.mpr h01)
          simp only [scanStops, if_pos hcond, div_self hne, lerpChannel_one]
        · have hpair : List.Pairwise (fun a b => a.pos < b.pos) (s1 :: rest) := by
            have : IsTrans ColorStop (fun a b => a.pos < b.pos) :=
              ⟨fun _ _ _ h1 h2 => lt_trans h1 h2⟩
            exact List.chain'_iff_pairwise.mp hchTail
          have hgt : s1.pos < s.pos := (List.pairwise_cons.mp hpair).1 s hsRest
          have hcond : ¬(s0.pos ≤ s.pos ∧ s.pos ≤ s1.pos) := by
            rintro ⟨-, habs⟩; exact absurd habs (not_le.mpr hgt)
          rcases rest with _ | ⟨s2, rest2⟩
          · simp at hsRest
          · simp only [scanStops, if_neg hcond]
            exact ih hchTail s hsTail (by simp)

/-- Bundled exact-stop facts for one registered colormap, derived from its
order-structure side conditions. -/
theorem exactStopsFor (name : ColormapName)
    (hch : (COLORMAPS name).Chain' (fun a b => a.pos < b.pos))
    (hbnd : ∀ s ∈ COLORMAPS name, 0 ≤ s.pos ∧ s.pos ≤ 1)
    (hlen : 2 ≤ (COLORMAPS name).length)
    (hhead : (COLORMAPS name).head?.map ColorStop.pos = some 0)
    (hlast : (COLORMAPS name).getLast?.map ColorStop.pos = some 1) :
    (∀ s ∈ COLORMAPS name, sampleColormap name s.pos = (s.r, s.g, s.b)) ∧
    sampleColormap name 0 = firstStopColor (COLORMAPS name) ∧
    sampleColormap name 1 = lastStopColor (COLORMAPS name) := by
  have hAt : ∀ s ∈ COLORMAPS name, sampleColormap name s.pos = (s.r, s.g, s.b) := by
    intro s hs
    have hb := hbnd s hs
    have hscan := scanStops_exact (COLORMAPS name) hch s hs hlen
    simp only [sampleColormap, clamp01_eq hb.1 hb.2, hscan]
  refine ⟨hAt, ?_, ?_⟩
  · rcases hh : (COLORMAPS name).head? with - | s0
    · simp [hh] at hhead
    · have hp : s0.pos = 0 := by simpa [hh] using hhead
      have hmem : s0 ∈ COLORMAPS name := List.mem_of_mem_head? (by simp [hh])
      have := hAt s0 hmem
      rw [hp] at this
      simp only [this, firstStopColor, hh]
  · rcases hl : (COLORMAPS name).getLast? with - | sl
    · simp [hl] at hlast
    · have hp : sl.pos = 1 := by simpa [hl] using hlast
      have hmem : sl ∈ COLORMAPS name := List.mem_of_getLast?_eq_some hl
      have := hAt sl hmem
      rw [hp] at this
      simp only [this, lastStopColor, hl]

/-- C5: for every registered colormap and every color stop `(p, c)` in it,
`sampleColormap(name, p)` returns exactly `c`; in particular sampling at `0.0`
gives the first stop's color and sampling at `1.0` the last stop's color. -/
theorem sampleColormap_exact_stops :
    ∀ name : ColormapName,
      (∀ s ∈ COLORMAPS name, sampleColormap name s.pos = (s.r, s.g, s.b)) ∧
      sampleColormap name 0 = firstStopColor (COLORMAPS name) ∧
      sampleColormap name 1 = lastStopColor (COLORMAPS name) := by
  intro name
  cases name <;>
    exact exactStopsFor _
      (by norm_num [COLORMAPS, List.chain'_cons])
      (by norm_num [COLORMAPS])
      (by simp [COLORMAPS])
      (by simp [COLORMAPS])
      (by simp [COLORMAPS])

/-- Witness for C5 at the viridis colormap and its first stop. -/
theorem sampleColormap_exact_stops_witness :
    (⟨0, 68, 1, 84⟩ : ColorStop) ∈ COLORMAPS ColormapName.viridis ∧
    sampleColormap ColormapName.viridis 0 = (68, 1, 84) :=
  ⟨by simp [COLORMAPS],
   (sampleColormap_exact_stops ColormapName.viridis).1 ⟨0, 68, 1, 84⟩ (by simp [COLORMAPS])⟩

/-- A reprojected point `(lng, lat, z)` (or a stored offset triple). -/
abbrev Vec3 := Rat × Rat × Rat

/-- The axis-aligned bounding box of `PointCloudData.bounds`. -/
structure Bounds where
  minX : Rat
  maxX : Rat
  minY : Rat
  maxY : Rat
  minZ : Rat
  maxZ : Rat
deriving DecidableEq

/-- Structure `PointCloudData` from `types.ts`; per-point buffers are kept grouped:
`positions` holds one `(dx, dy, z)` triple per point (3 numbers per point in
the source buffer), `colors` one RGBA quadruple per point (4 bytes per point). -/
structure PointCloudData where
  positions : List Vec3
  coordinateOrigin : Vec3
  colors : Option (List (Int × Int × Int × Int))
  intensities : Option (List Rat)
  classifications : Option (List Nat)
  pointCount : Nat
  bounds : Bounds
deriving DecidableEq

/-- Header of `LASMesh` in `load-pointcloud.ts` (only the field the builder reads). -/
structure LASHeader where
  vertexCount : Nat

/-- The decoded attribute buffers of `LASMesh`.  Buffers are modelled as total
index functions (the decoder guarantees `vertexCount`-sized typed arrays):
`POSITION` is the flat `Float64Array` (3 entries per point), `COLOR_0` is the
flat byte buffer paired with its per-point channel count (`size`, 3 or 4),
`intensity` holds raw 16-bit integers, `classification` raw codes. -/
structure LASAttributes where
  POSITION : Nat → Rat
  COLOR_0 : Option ((Nat → Int) × Nat)
  intensity : Option (Nat → Nat)
  classification : Option (Nat → Nat)

/-- The decoded mesh handed to the processing steps of `loadPointCloud`. -/
structure LASMesh where
  header : LASHeader
  attributes : LASAttributes

/-- Constant `MAX_POINTS` from `load-pointcloud.ts`: the subsampling cap. -/
def MAX_POINTS : Nat := 500000

/-- Integer ceiling division: `Math.ceil(a / b)` for nonnegative integers. -/
def ceilDiv (a b : Nat) : Nat := (a + b - 1) / b

/-- The subsampling stride:
`step = totalPoints > MAX_POINTS ? Math.ceil(totalPoints / MAX_POINTS) : 1`. -/
def stepOf (totalPoints : Nat) : Nat :=
  if totalPoints > MAX_POINTS then ceilDiv totalPoints MAX_POINTS else 1

/-- The output count `pointCount = Math.ceil(totalPoints / step)`. -/
def pointCountOf (totalPoints : Nat) : Nat := ceilDiv totalPoints (stepOf totalPoints)

/-- Step 4 of `loadPointCloud`: the reprojected `(lng, lat, z)` triple of every
sampled point, sampling source index `i * step` and feeding `(utmX, utmY)` to
the injected forward projection (`toWGS84.forward`). -/
def reprojected (proj : Rat × Rat → Rat × Rat) (mesh : LASMesh) : List Vec3 :=
  (List.range (pointCountOf mesh.header.vertexCount)).map (fun i =>
    let srcIdx := i * stepOf mesh.header.vertexCount
    let utmX := mesh.attributes.POSITION (srcIdx * 3)
    let utmY := mesh.attributes.POSITION (srcIdx * 3 + 1)
    let z := mesh.attributes.POSITION (srcIdx * 3 + 2)
    let ll := proj (utmX, utmY)
    (ll.1, ll.2, z))

/-- The bounds state after the first point: every `lng < Infinity` style
comparison succeeds, so all six extremes become that point's coordinates. -/
def initBounds (p : Vec3) : Bounds :=
  ⟨p.1, p.1, p.2.1, p.2.1, p.2.2, p.2.2⟩

/-- One iteration of the running min/max tracking of Step 4. -/
def updBounds (b : Bounds) (p : Vec3) : Bounds :=
  { minX := if p.1 < b.minX then p.1 else b.minX
    maxX := if p.1 > b.maxX then p.1 else b.maxX
    minY := if p.2.1 < b.minY then p.2.1 else b.minY
    maxY := if p.2.1 > b.maxY then p.2.1 else b.maxY
    minZ := if p.2.2 < b.minZ then p.2.2 else b.minZ
    maxZ := if p.2.2 > b.maxZ then p.2.2 else b.maxZ }

/-- The bounding-box accumulation over all reprojected points.  The source
folds from `±Infinity`; infinities are not rational, so the state before the
first point is `none` (folding the first point into it yields `initBounds`,
exactly what the infinite start produces).  An empty input leaves the source
bounds infinite (and the derived origin NaN) — that state is unreachable from
any nonempty input and is represented by `none`. -/
def computeBounds : List Vec3 → Option Bounds
  | [] => none
  | p :: ps => some (ps.foldl updBounds (initBounds p))

/-- Steps 2-7 of `loadPointCloud` after the parse: subsample, reproject,
accumulate bounds, derive the origin, offset-encode positions, and copy the
optional attributes (intensity rescaled by `/65535`, classification verbatim,
color channels verbatim with alpha forced to `255`). -/
def buildPointCloud (proj : Rat × Rat → Rat × Rat) (mesh : LASMesh) : PointCloudData :=
  let totalPoints := mesh.header.vertexCount
  let step := stepOf totalPoints
  let pointCount := pointCountOf totalPoints
  let lngLat := reprojected proj mesh
  let bounds := (computeBounds lngLat).getD ⟨0, 0, 0, 0, 0, 0⟩
  let originLng := (bounds.minX + bounds.maxX) / 2
  let originLat := (bounds.minY + bounds.maxY) / 2
  let positions := lngLat.map (fun p => (p.1 - originLng, p.2.1 - originLat, p.2.2))
  let colors := mesh.attributes.COLOR_0.map (fun rc =>
    (List.range pointCount).map (fun i =>
      let srcIdx := i * step
      if 3 ≤ rc.2 then
        (rc.1 (srcIdx * rc.2), rc.1 (srcIdx * rc.2 + 1), rc.1 (srcIdx * rc.2 + 2), (255 : Int))
      else (0, 0, 0, 255)))
  let intensities := mesh.attributes.intensity.map (fun ri =>
    (List.range pointCount).map (fun i => ((ri (i * step) : Rat) / 65535)))
  let classifications := mesh.attributes.classification.map (fun rc =>
    (List.range pointCount).map (fun i => rc (i * step)))
  { positions := positions
    coordinateOrigin := (originLng, originLat, 0)
    colors := colors
    intensities := intensities
    classifications := classifications
    pointCount := pointCount
    bounds := bounds }

/-- The errors `loadPointCloud` can raise itself before processing: the LAS 1.4
point-format compatibility check. -/
inductive LoadError where
  | unsupportedFormat : Nat → LoadError
deriving DecidableEq

/-- Function `loadPointCloud`: the header compatibility check (`versionMajor`,
`versionMinor` from bytes 24/25, point-format id from byte 104 masked with
`0x3f`) followed by the processing pipeline.  A LAS 1.4 file with point format
above 3 is rejected; every other input flows through `buildPointCloud`. -/
def loadPointCloud (proj : Rat × Rat → Rat × Rat)
    (versionMajor versionMinor rawFormatId : Nat) (mesh : LASMesh) :
    Except LoadError PointCloudData :=
  let pointFormatId := rawFormatId % 64
  if versionMajor = 1 ∧ versionMinor = 4 ∧ pointFormatId > 3 then
    Except.error (LoadError.unsupportedFormat pointFormatId)
  else
    Except.ok (buildPointCloud proj mesh)

theorem ceilDivLe {a b c : Nat} (hb : 0 < b) : ceilDiv a b ≤ c ↔ a ≤ c * b := by
  unfold ceilDiv
  rw [Nat.div_le_iff_le_mul_add_pred hb, Nat.mul_comm b c]
  omega

theorem leMulCeilDiv (a b : Nat) (hb : 0 < b) : a ≤ ceilDiv a b * b :=
  (ceilDivLe hb).mp (le_refl _)

theorem ceilDivOne (a : Nat) : ceilDiv a 1 = a := by
  unfold ceilDiv
  omega

theorem one_le_ceilDiv {a b : Nat} (hb : 0 < b) (ha : 1 ≤ a) : 1 ≤ ceilDiv a b := by
  by_contra h
  have h0 : ceilDiv a b = 0 := by omega
  have := (ceilDivLe hb).mp (Nat.le_of_eq h0)
  omega

theorem stepOf_pos (v : Nat) : 0 < stepOf v := by
  have hM : 0 < MAX_POINTS := by norm_num [MAX_POINTS]
  unfold stepOf
  split
  · have hv : v > MAX_POINTS := by assumption
    exact one_le_ceilDiv hM (by omega)
  · exact Nat.one_pos

theorem stepOf_eq_max (v : Nat) : stepOf v = max 1 (ceilDiv v MAX_POINTS) := by
  have hM : 0 < MAX_POINTS := by norm_num [MAX_POINTS]
  unfold stepOf
  split
  · have hv : v > MAX_POINTS := by assumption
    have h1 : 1 ≤ ceilDiv v MAX_POINTS := one_le_ceilDiv hM (by omega)
    omega
  · have hv : ¬ v > MAX_POINTS := by assumption
    have h1 : ceilDiv v MAX_POINTS ≤ 1 := (ceilDivLe hM).mpr (by omega)
    omega

theorem pointCountOf_le_cap (v : Nat) : pointCountOf v ≤ MAX_POINTS := by
  have hM : 0 < MAX_POINTS := by norm_num [MAX_POINTS]
  unfold pointCountOf stepOf
  split
  · have hv : v > MAX_POINTS := by assumption
    have hs : 0 < ceilDiv v MAX_POINTS := one_le_ceilDiv hM (by omega)
    refine (ceilDivLe hs).mpr ?_
    rw [Nat.mul_comm]
    exact leMulCeilDiv v MAX_POINTS hM
  · have hv : ¬ v > MAX_POINTS := by assumption
    rw [ceilDivOne]
    omega

theorem pointCountOf_pos {v : Nat} (hv : 1 ≤ v) : 1 ≤ pointCountOf v :=
  one_le_ceilDiv (stepOf_pos v) hv

/-- Running minimum with the source's `if x < m then x else m` update. -/
def foldMin (l : List Rat) (m : Rat) : Rat :=
  l.foldl (fun acc x => if x < acc then x else acc) m

/-- Running maximum with the source's `if x > m then x else m` update. -/
def foldMax (l : List Rat) (m : Rat) : Rat :=
  l.foldl (fun acc x => if x > acc then x else acc) m

theorem foldMin_le_init : ∀ (l : List Rat) (m : Rat), foldMin l m ≤ m := by
  intro l
  induction l with
  | nil => intro m; exact le_refl m
  | cons x xs ih =>
    intro m
    have h := ih (if x < m then x else m)
    refine le_trans h ?_
    split <;> [exact le_of_lt (by assumption); exact le_refl _]

theorem foldMin_le_mem : ∀ (l : List Rat) (m x : Rat), x ∈ l → foldMin l m ≤ x := by
  intro l
  induction l with
  | nil => intro m x hx; simp at hx
  | cons y ys ih =>
    intro m x hx
    rcases List.mem_cons.mp hx with rfl | hx
    · refine le_trans (foldMin_le_init ys _) ?_
      by_cases h : x < m
      · simp [foldMin, h]
      · simp [foldMin, h]; linarith [not_lt.mp h]
    · exact ih _ x hx

theorem foldMin_attained : ∀ (l : List Rat) (m : Rat), foldMin l m = m ∨ foldMin l m ∈ l := by
  intro l
  induction l with
  | nil => intro m; exact Or.inl rfl
  | cons y ys ih =>
    intro m
    rcases ih (if y < m then y else m) with h | h
    · by_cases hy : y < m
      · right
        rw [show foldMin (y :: ys) m = foldMin ys (if y < m then y else m) from rfl, h, if_pos hy]
        exact List.mem_cons_self y ys
      · left
        rw [show foldMin (y :: ys) m = foldMin ys (if y < m then y else m) from rfl, h, if_neg hy]
    · right
      exact List.mem_cons_of_mem y h

theorem foldMax_init_le : ∀ (l : List Rat) (m : Rat), m ≤ foldMax l m := by
  intro l
  induction l with
  | nil => intro m; exact le_refl m
  | cons x xs ih =>
    intro m
    have h := ih (if x > m then x else m)
    refine le_trans ?_ h
    split <;> [exact le_of_lt (by assumption); exact le_refl _]

theorem foldMax_mem_le : ∀ (l : List Rat) (m x : Rat), x ∈ l → x ≤ foldMax l m := by
  intro l
  induction l with
  | nil => intro m x hx; simp at hx
  | cons y ys ih =>
    intro m x hx
    rcases List.mem_cons.mp hx with rfl | hx
    · refine le_trans ?_ (foldMax_init_le ys _)
      by_cases h : x > m
      · simp [foldMax, h]
      · simp [foldMax, h]; linarith [not_lt.mp h]
    · exact ih _ x hx

theorem foldMax_attained : ∀ (l : List Rat) (m : Rat), foldMax l m = m ∨ foldMax l m ∈ l := by
  intro l
  induction l with
  | nil => intro m; exact Or.inl rfl
  | cons y ys ih =>
    intro m
    rcases ih (if y > m then y else m) with h | h
    · by_cases hy : y > m
      · right
        rw [show foldMax (y :: ys) m = foldMax ys (if y > m then y else m) from rfl, h, if_pos hy]
        exact List.mem_cons_self y ys
      · left
        rw [show foldMax (y :: ys) m = foldMax ys (if y > m then y else m) from rfl, h, if_neg hy]
    · right
      exact List.mem_cons_of_mem y h

theorem foldBounds_minX : ∀ (l : List Vec3) (b : Bounds),
    (l.foldl updBounds b).minX = foldMin (l.map (fun p => p.1)) b.minX := by
  intro l
  induction l with
  | nil => intro b; rfl
  | cons p ps ih =>
    intro b
    show (ps.foldl updBounds (updBounds b p)).minX = foldMin (p.1 :: ps.map (fun q => q.1)) b.minX
    rw [ih (updBounds b p)]
    rfl

theorem foldBounds_maxX : ∀ (l : List Vec3) (b : Bounds),
    (l.foldl updBounds b).maxX = foldMax (l.map (fun p => p.1)) b.maxX := by
  intro l
  induction l with
  | nil => intro b; rfl
  | cons p ps ih =>
    intro b
    show (ps.foldl updBounds (updBounds b p)).maxX = foldMax (p.1 :: ps.map (fun q => q.1)) b.maxX
    rw [ih (updBounds b p)]
    rfl

theorem foldBounds_minY : ∀ (l : List Vec3) (b : Bounds),
    (l.foldl updBounds b).minY = foldMin (l.map (fun p => p.2.1)) b.minY := by
  intro l
  induction l with
  | nil => intro b; rfl
  | cons p ps ih =>
    intro b
    show (ps.foldl updBounds (updBounds b p)).minY = foldMin (p.2.1 :: ps.map (fun q => q.2.1)) b.minY
    rw [ih (updBounds b p)]
    rfl

theorem foldBounds_maxY : ∀ (l : List Vec3) (b : Bounds),
    (l.foldl updBounds b).maxY = foldMax (l.map (fun p => p.2.1)) b.maxY := by
  intro l
  induction l with
  | nil => intro b; rfl
  | cons p ps ih =>
    intro b
    show (ps.foldl updBounds (updBounds b p)).maxY = foldMax (p.2.1 :: ps.map (fun q => q.2.1)) b.maxY
    rw [ih (updBounds b p)]
    rfl

theorem foldBounds_minZ : ∀ (l : List Vec3) (b : Bounds),
    (l.foldl updBounds b).minZ = foldMin (l.map (fun p => p.2.2)) b.minZ := by
  intro l
  induction l with
  | nil => intro b; rfl
  | cons p ps ih =>
    intro b
    show (ps.foldl updBounds (updBounds b p)).minZ = foldMin (p.2.2 :: ps.map (fun q => q.2.2)) b.minZ
    rw [ih (updBounds b p)]
    rfl

theorem foldBounds_maxZ : ∀ (l : List Vec3) (b : Bounds),
    (l.foldl updBounds b).maxZ = foldMax (l.map (fun p => p.2.2)) b.maxZ := by
  intro l
  induction l with
  | nil => intro b; rfl
  | cons p ps ih =>
    intro b
    show (ps.foldl updBounds (updBounds b p)).maxZ = foldMax (p.2.2 :: ps.map (fun q => q.2.2)) b.maxZ
    rw [ih (updBounds b p)]
    rfl

/-- The accumulated bounds of a nonempty point list contain every point and
attain all six extremes at some point of the list. -/
theorem computeBounds_spec (l : List Vec3) (b : Bounds)
    (hb : computeBounds l = some b) :
    (∀ p ∈ l, b.minX ≤ p.1 ∧ p.1 ≤ b.maxX ∧ b.minY ≤ p.2.1 ∧ p.2.1 ≤ b.maxY ∧
      b.minZ ≤ p.2.2 ∧ p.2.2 ≤ b.maxZ) ∧
    ((∃ p ∈ l, p.1 = b.minX) ∧ (∃ p ∈ l, p.1 = b.maxX) ∧
     (∃ p ∈ l, p.2.1 = b.minY) ∧ (∃ p ∈ l, p.2.1 = b.maxY) ∧
     (∃ p ∈ l, p.2.2 = b.minZ) ∧ (∃ p ∈ l, p.2.2 = b.maxZ)) := by
  rcases l with _ | ⟨p0, ps⟩
  · simp [computeBounds] at hb
  · have hbEq : b = ps.foldl updBounds (initBounds p0) := by
      simpa [computeBounds] using hb.symm
    subst hbEq
    have hminX := foldBounds_minX ps (initBounds p0)
    have hmaxX := foldBounds_maxX ps (initBounds p0)
    have hminY := foldBounds_minY ps (initBounds p0)
    have hmaxY := foldBounds_maxY ps (initBounds p0)
    have hminZ := foldBounds_minZ ps (initBounds p0)
    have hmaxZ := foldBounds_maxZ ps (initBounds p0)
    constructor
    · intro p hp
      rcases List.mem_cons.mp hp with rfl | hp
      · exact ⟨by rw [hminX]; exact foldMin_le_init _ _,
               by rw [hmaxX]; exact foldMax_init_le _ _,
               by rw [hminY]; exact foldMin_le_init _ _,
               by rw [hmaxY]; exact foldMax_init_le _ _,
               by rw [hminZ]; exact foldMin_le_init _ _,
               by rw [hmaxZ]; exact foldMax_init_le _ _⟩
      · exact ⟨by rw [hminX]; exact foldMin_le_mem _ _ _ (List.mem_map_of_mem _ hp),
               by rw [hmaxX]; exact foldMax_mem_le _ _ _ (List.mem_map_of_mem _ hp),
               by rw [hminY]; exact foldMin_le_mem _ _ _ (List.mem_map_of_mem _ hp),
               by rw [hmaxY]; exact foldMax_mem_le _ _ _ (List.mem_map_of_mem _ hp),
               by rw [hminZ]; exact foldMin_le_mem _ _ _ (List.mem_map_of_mem _ hp),
               by rw [hmaxZ]; exact foldMax_mem_le _ _ _ (List.mem_map_of_mem _ hp)⟩
    · refine ⟨?_, ?_, ?_, ?_, ?_, ?_⟩
      · rcases foldMin_attained (ps.map (fun p => p.1)) (initBounds p0).minX with h | h
        · exact ⟨p0, List.mem_cons_self _ _, by rw [hminX, h]; rfl⟩
        · rcases List.mem_map.mp h with ⟨q, hq, hqx⟩
          exact ⟨q, List.mem_cons_of_mem _ hq, by rw [hminX, ← hqx]⟩
      · rcases foldMax_attained (ps.map (fun p => p.1)) (initBounds p0).maxX with h | h
        · exact ⟨p0, List.mem_cons_self _ _, by rw [hmaxX, h]; rfl⟩
        · rcases List.mem_map.mp h with ⟨q, hq, hqx⟩
          exact ⟨q, List.mem_cons_of_mem _ hq, by rw [hmaxX, ← hqx]⟩
      · rcases foldMin_attained (ps.map (fun p => p.2.1)) (initBounds p0).minY with h | h
        · exact ⟨p0, List.mem_cons_self _ _, by rw [hminY, h]; rfl⟩
        · rcases List.mem_map.mp h with ⟨q, hq, hqx⟩
          exact ⟨q, List.mem_cons_of_mem _ hq, by rw [hminY, ← hqx]⟩
      · rcases foldMax_attained (ps.map (fun p => p.2.1)) (initBounds p0).maxY with h | h
        · exact ⟨p0, List.mem_cons_self _ _, by rw [hmaxY, h]; rfl⟩
        · rcases List.mem_map.mp h with ⟨q, hq, hqx⟩
          exact ⟨q, List.mem_cons_of_mem _ hq, by rw [hmaxY, ← hqx]⟩
      · rcases foldMin_attained (ps.map (fun p => p.2.2)) (initBounds p0).minZ with h | h
        · exact ⟨p0, List.mem_cons_self _ _, by rw [hminZ, h]; rfl⟩
        · rcases List.mem_map.mp h with ⟨q, hq, hqx⟩
          exact ⟨q, List.mem_cons_of_mem _ hq, by rw [hminZ, ← hqx]⟩
      · rcases foldMax_attained (ps.map (fun p => p.2.2)) (initBounds p0).maxZ with h | h
        · exact ⟨p0, List.mem_cons_self _ _, by rw [hmaxZ, h]; rfl⟩
        · rcases List.mem_map.mp h with ⟨q, hq, hqx⟩
          exact ⟨q, List.mem_cons_of_mem _ hq, by rw [hmaxZ, ← hqx]⟩

theorem reprojected_length (proj : Rat × Rat → Rat × Rat) (mesh : LASMesh) :
    (reprojected proj mesh).length = pointCountOf mesh.header.vertexCount := by
  simp [reprojected]

theorem build_pointCount_eq (proj : Rat × Rat → Rat × Rat) (mesh : LASMesh) :
    (buildPointCloud proj mesh).pointCount = pointCountOf mesh.header.vertexCount := rfl

theorem build_bounds_eq (proj : Rat × Rat → Rat × Rat) (mesh : LASMesh) :
    (buildPointCloud proj mesh).bounds =
      (computeBounds (reprojected proj mesh)).getD ⟨0, 0, 0, 0, 0, 0⟩ := rfl

theorem build_positions_eq (proj : Rat × Rat → Rat × Rat) (mesh : LASMesh) :
    (buildPointCloud proj mesh).positions =
      (reprojected proj mesh).map (fun p =>
        (p.1 - ((buildPointCloud proj mesh).bounds.minX +
                (buildPointCloud proj mesh).bounds.maxX) / 2,
         p.2.1 - ((buildPointCloud proj mesh).bounds.minY +
                  (buildPointCloud proj mesh).bounds.maxY) / 2,
         p.2.2)) := rfl

/-- C3: for inputs with at least one declared vertex, the stride is
`max(1, ceil(vertexCount / MAX_POINTS))`, the output count is
`ceil(vertexCount / step)` and is capped by `MAX_POINTS = 500000`, and the
decimation is uniform nth-point sampling: reprojected output point `i` is
computed from source index `i * step`.  (The builder is a pure function of the
mesh and the injected projection, so repeated runs coincide by construction.) -/
theorem builder_subsampling (v : Nat) (hv : 1 ≤ v) :
    stepOf v = max 1 (ceilDiv v MAX_POINTS) ∧
    pointCountOf v = ceilDiv v (stepOf v) ∧
    pointCountOf v ≤ MAX_POINTS ∧
    ∀ (proj : Rat × Rat → Rat × Rat) (mesh : LASMesh),
      mesh.header.vertexCount = v →
      ∀ i, i < pointCountOf v →
        (reprojected proj mesh).getD i (0, 0, 0) =
          ((proj (mesh.attributes.POSITION (i * stepOf v * 3),
                  mesh.attributes.POSITION (i * stepOf v * 3 + 1))).1,
           (proj (mesh.attributes.POSITION (i * stepOf v * 3),
                  mesh.attributes.POSITION (i * stepOf v * 3 + 1))).2,
           mesh.attributes.POSITION (i * stepOf v * 3 + 2)) := by
  refine ⟨stepOf_eq_max v, rfl, pointCountOf_le_cap v, ?_⟩
  intro proj mesh hm i hi
  subst hm
  simp [reprojected, List.getD_eq_getElem?_getD, List.getElem?_map, List.getElem?_range, hi]

/-- Witness for C3 at a three-vertex input. -/
theorem builder_subsampling_witness : (1 : Nat) ≤ 3 ∧ pointCountOf 3 ≤ MAX_POINTS :=
  ⟨by norm_num, (builder_subsampling 3 (by norm_num)).2.2.1⟩

/-- C4: every `PointCloudData` built from a nonempty input satisfies the data
model invariants: per-point buffer lengths equal `pointCount`, the bounds
tightly enclose every reprojected point (contained, and each extreme attained),
and the coordinate origin is the XY midpoint of the bounds with `Z = 0`. -/
theorem buildPointCloud_invariants (proj : Rat × Rat → Rat × Rat) (mesh : LASMesh)
    (hv : 1 ≤ mesh.header.vertexCount) :
    (buildPointCloud proj mesh).positions.length = (buildPointCloud proj mesh).pointCount ∧
    (∀ cl, (buildPointCloud proj mesh).colors = some cl →
      cl.length = (buildPointCloud proj mesh).pointCount) ∧
    (∀ il, (buildPointCloud proj mesh).intensities = some il →
      il.length = (buildPointCloud proj mesh).pointCount) ∧
    (∀ kl, (buildPointCloud proj mesh).classifications = some kl →
      kl.length = (buildPointCloud proj mesh).pointCount) ∧
    (∀ p ∈ reprojected proj mesh,
      (buildPointCloud proj mesh).bounds.minX ≤ p.1 ∧
      p.1 ≤ (buildPointCloud proj mesh).bounds.maxX ∧
      (buildPointCloud proj mesh).bounds.minY ≤ p.2.1 ∧
      p.2.1 ≤ (buildPointCloud proj mesh).bounds.maxY ∧
      (buildPointCloud proj mesh).bounds.minZ ≤ p.2.2 ∧
      p.2.2 ≤ (buildPointCloud proj mesh).bounds.maxZ) ∧
    ((∃ p ∈ reprojected proj mesh, p.1 = (buildPointCloud proj mesh).bounds.minX) ∧
     (∃ p ∈ reprojected proj mesh, p.1 = (buildPointCloud proj mesh).bounds.maxX) ∧
     (∃ p ∈ reprojected proj mesh, p.2.1 = (buildPointCloud proj mesh).bounds.minY) ∧
     (∃ p ∈ reprojected proj mesh, p.2.1 = (buildPointCloud proj mesh).bounds.maxY) ∧
     (∃ p ∈ reprojected proj mesh, p.2.2 = (buildPointCloud proj mesh).bounds.minZ) ∧
     (∃ p ∈ reprojected proj mesh, p.2.2 = (buildPointCloud proj mesh).bounds.maxZ)) ∧
    (buildPointCloud proj mesh).coordinateOrigin =
      (((buildPointCloud proj mesh).bounds.minX + (buildPointCloud proj mesh).bounds.maxX) / 2,
       ((buildPointCloud proj mesh).bounds.minY + (buildPointCloud proj mesh).bounds.maxY) / 2,
       0) := by
  have hlen : (reprojected proj mesh).length = pointCountOf mesh.header.vertexCount :=
    reprojected_length proj mesh
  have hpos : 1 ≤ pointCountOf mesh.header.vertexCount := pointCountOf_pos hv
  have hne : reprojected proj mesh ≠ [] := by
    intro h
    rw [h] at hlen
    simp at hlen
    omega
  obtain ⟨p0, ps, hcons⟩ := List.exists_cons_of_ne_nil hne
  have hsome : computeBounds (reprojected proj mesh) =
      some (ps.foldl updBounds (initBounds p0)) := by
    rw [hcons]; rfl
  have hbEq : (buildPointCloud proj mesh).bounds = ps.foldl updBounds (initBounds p0) := by
    rw [build_bounds_eq, hsome]; rfl
  have hspec := computeBounds_spec (reprojected proj mesh) _ hsome
  refine ⟨?_, ?_, ?_, ?_, ?_, ?_, rfl⟩
  · show ((reprojected proj mesh).map _).length = _
    rw [List.length_map, hlen]; rfl
  · intro cl hcl
    rcases hc : mesh.attributes.COLOR_0 with - | rc
    · rw [show (buildPointCloud proj mesh).colors = mesh.attributes.COLOR_0.map _ from rfl,
        hc, Option.map_none'] at hcl
      exact absurd hcl (by simp)
    · rw [show (buildPointCloud proj mesh).colors = mesh.attributes.COLOR_0.map _ from rfl,
        hc, Option.map_some'] at hcl
      have hcl2 := Option.some.inj hcl
      rw [← hcl2, List.length_map, List.length_range]; rfl
  · intro il hil
    rcases hc : mesh.attributes.intensity with - | ri
    · rw [show (buildPointCloud proj mesh).intensities = mesh.attributes.intensity.map _ from rfl,
        hc, Option.map_none'] at hil
      exact absurd hil (by simp)
    · rw [show (buildPointCloud proj mesh).intensities = mesh.attributes.intensity.map _ from rfl,
        hc, Option.map_some'] at hil
      have hil2 := Option.some.inj hil
      rw [← hil2, List.length_map, List.length_range]; rfl
  · intro kl hkl
    rcases hc : mesh.attributes.classification with - | rk
    · rw [show (buildPointCloud proj mesh).classifications =
          mesh.attributes.classification.map _ from rfl, hc, Option.map_none'] at hkl
      exact absurd hkl (by simp)
    · rw [show (buildPointCloud proj mesh).classifications =
          mesh.attributes.classification.map _ from rfl, hc, Option.map_some'] at hkl
      have hkl2 := Option.some.inj hkl
      rw [← hkl2, List.length_map, List.length_range]; rfl
  · intro p hp
    rw [hbEq]
    exact hspec.1 p hp
  · rw [hbEq]
    exact hspec.2

/-- A two-point mesh (identity projection) for the C4 witness. -/
def mesh1 : LASMesh :=
  { header := ⟨2⟩
    attributes :=
      { POSITION := fun k => (k : Rat)
        COLOR_0 := none
        intensity := none
        classification := none } }

/-- Witness for C4 at a concrete two-point mesh. -/
theorem buildPointCloud_invariants_witness :
    1 ≤ mesh1.header.vertexCount ∧
    (buildPointCloud (fun p => p) mesh1).coordinateOrigin =
      (((buildPointCloud (fun p => p) mesh1).bounds.minX +
        (buildPointCloud (fun p => p) mesh1).bounds.maxX) / 2,
       ((buildPointCloud (fun p => p) mesh1).bounds.minY +
        (buildPointCloud (fun p => p) mesh1).bounds.maxY) / 2,
       0) :=
  ⟨by norm_num [mesh1],
   (buildPointCloud_invariants (fun p => p) mesh1 (by norm_num [mesh1])).2.2.2.2.2.2⟩

/-- A decoded mesh whose header declares zero vertices. -/
def meshEmpty : LASMesh :=
  { header := ⟨0⟩
    attributes :=
      { POSITION := fun _ => 0
        COLOR_0 := none
        intensity := none
        classification := none } }

/-- C2 counterexample: a zero-vertex input is NOT rejected.  `loadPointCloud`
performs no vertex-count or position-presence validation, so it succeeds and
hands back a degenerate `PointCloudData` with `pointCount = 0`, contradicting
the claimed `FormatError`-and-no-partial-result contract. -/
theorem loadPointCloud_zero_vertices_succeeds :
    loadPointCloud (fun p => p) 1 2 0 meshEmpty =
      Except.ok (buildPointCloud (fun p => p) meshEmpty) ∧
    (buildPointCloud (fun p => p) meshEmpty).pointCount = 0 ∧
    (buildPointCloud (fun p => p) meshEmpty).positions = [] := by
  refine ⟨?_, ?_, ?_⟩
  · rw [loadPointCloud, if_neg]
    rintro ⟨-, h4, -⟩
    exact absurd h4 (by norm_num)
  · rw [build_pointCount_eq]
    norm_num [meshEmpty, pointCountOf, stepOf, ceilDiv, MAX_POINTS]
  · have h0 : pointCountOf meshEmpty.header.vertexCount = 0 := by
      norm_num [meshEmpty, pointCountOf, stepOf, ceilDiv, MAX_POINTS]
    rw [build_positions_eq, List.map_eq_nil_iff, ← List.length_eq_zero, reprojected_length]
    exact h0

/-- C2 amended: the only rejection `loadPointCloud` implements is the header
compatibility check (LAS 1.4 with point-record format above 3 fails before
decoding); every other input — including a declared vertex count of zero —
flows through the builder and succeeds, a zero-vertex input yielding an empty
`PointCloudData` with `pointCount = 0` rather than a `FormatError`. -/
theorem loadPointCloud_amended :
    (∀ (proj : Rat × Rat → Rat × Rat) (vM vm fmt : Nat) (mesh : LASMesh),
      ¬(vM = 1 ∧ vm = 4 ∧ fmt % 64 > 3) →
      loadPointCloud proj vM vm fmt mesh = Except.ok (buildPointCloud proj mesh)) ∧
    (∀ (proj : Rat × Rat → Rat × Rat) (vM vm fmt : Nat) (mesh : LASMesh),
      vM = 1 → vm = 4 → fmt % 64 > 3 →
      loadPointCloud proj vM vm fmt mesh =
        Except.error (LoadError.unsupportedFormat (fmt % 64))) ∧
    (∀ (proj : Rat × Rat → Rat × Rat) (mesh : LASMesh),
      mesh.header.vertexCount = 0 →
      (buildPointCloud proj mesh).pointCount = 0 ∧
      (buildPointCloud proj mesh).positions = []) := by
  refine ⟨?_, ?_, ?_⟩
  · intro proj vM vm fmt mesh h
    rw [loadPointCloud, if_neg h]
  · intro proj vM vm fmt mesh h1 h4 hfmt
    rw [loadPointCloud, if_pos ⟨h1, h4, hfmt⟩]
  · intro proj mesh h0
    have hpc : pointCountOf mesh.header.vertexCount = 0 := by
      rw [h0]
      norm_num [pointCountOf, stepOf, ceilDiv, MAX_POINTS]
    constructor
    · rw [build_pointCount_eq, hpc]
    · rw [build_positions_eq, List.map_eq_nil_iff, ← List.length_eq_zero, reprojected_length]
      exact hpc

/-- Witness for the amended C2 at a concrete zero-vertex input. -/
theorem loadPointCloud_amended_witness :
    ¬((1 : Nat) = 1 ∧ (2 : Nat) = 4 ∧ (0 : Nat) % 64 > 3) ∧
    loadPointCloud (fun p => p) 1 2 0 meshEmpty =
      Except.ok (buildPointCloud (fun p => p) meshEmpty) :=
  ⟨by norm_num,
   loadPointCloud_amended.1 (fun p => p) 1 2 0 meshEmpty (by norm_num)⟩

/-- C9: whenever the decoded source provides a color buffer (3- or 4-channel),
the built color buffer exists, has one RGBA entry per point, and every entry's
alpha byte is forced to `255` — source alpha values are discarded. -/
theorem buildPointCloud_alpha_opaque (proj : Rat × Rat → Rat × Rat) (mesh : LASMesh)
    (buf : Nat → Int) (cs : Nat) (h : mesh.attributes.COLOR_0 = some (buf, cs)) :
    ∃ cl, (buildPointCloud proj mesh).colors = some cl ∧
      cl.length = (buildPointCloud proj mesh).pointCount ∧
      ∀ q ∈ cl, q.2.2.2 = 255 := by
  refine ⟨(List.range (pointCountOf mesh.header.vertexCount)).map (fun i =>
      let srcIdx := i * stepOf mesh.header.vertexCount
      if 3 ≤ cs then
        (buf (srcIdx * cs), buf (srcIdx * cs + 1), buf (srcIdx * cs + 2), (255 : Int))
      else (0, 0, 0, 255)), ?_, ?_, ?_⟩
  · rw [show (buildPointCloud proj mesh).colors = mesh.attributes.COLOR_0.map _ from rfl,
      h, Option.map_some']
  · rw [List.length_map, List.length_range]; rfl
  · intro q hq
    rcases List.mem_map.mp hq with ⟨i, -, rfl⟩
    by_cases h3 : 3 ≤ cs <;> simp [h3]

/-- A one-point mesh with a four-channel color buffer whose source alpha is 7. -/
def meshColor4 : LASMesh :=
  { header := ⟨1⟩
    attributes :=
      { POSITION := fun _ => 0
        COLOR_0 := some (fun k => if k % 4 = 3 then 7 else 10, 4)
        intensity := none
        classification := none } }

/-- Witness for C9 at a concrete four-channel-color mesh. -/
theorem buildPointCloud_alpha_opaque_witness :
    meshColor4.attributes.COLOR_0 = some (fun k => if k % 4 = 3 then 7 else 10, 4) ∧
    ∃ cl, (buildPointCloud (fun p => p) meshColor4).colors = some cl ∧
      cl.length = (buildPointCloud (fun p => p) meshColor4).pointCount ∧
      ∀ q ∈ cl, q.2.2.2 = 255 :=
  ⟨rfl, buildPointCloud_alpha_opaque (fun p => p) meshColor4 _ 4 rfl⟩

/-- The color schemes of `types.ts`. -/
inductive ColorScheme where
  | elevation | intensity | classification | rgb
deriving DecidableEq

/-- The `ViewSettings` fields `colorizePoints` reads.  `classificationVisibility`
is the JS record lookup: `none` models an absent key. -/
structure ViewSettings where
  colorScheme : ColorScheme
  colormap : ColormapName
  classificationVisibility : Nat → Option Bool

/-- Table `CLASSIFICATION_COLORS` from `colorize.ts`: the ASPRS code palette. -/
def CLASSIFICATION_COLORS : Nat → Option (Int × Int × Int)
  | 0 => some (180, 180, 180)
  | 1 => some (180, 180, 180)
  | 2 => some (139, 90, 43)
  | 3 => some (0, 200, 0)
  | 4 => some (0, 150, 0)
  | 5 => some (0, 100, 0)
  | 6 => some (255, 165, 0)
  | 7 => some (255, 0, 0)
  | 9 => some (0, 100, 255)
  | 17 => some (200, 200, 0)
  | _ => none

/-- One RGBA quadruple per point. -/
abbrev RGBA := Int × Int × Int × Int

/-- Helper `fillSolidColor` from `colorize.ts`: one solid opaque color for all points. -/
def fillSolidColor (count : Nat) (r g b : Int) : List RGBA :=
  (List.range count).map (fun _ => (r, g, b, 255))

/-- The `elevation` branch of `colorizePoints`: normalize each `z` by the
dataset bounds (`maxZ - minZ || 1`), sample the colormap, alpha `255`. -/
def elevationColors (data : PointCloudData) (cm : ColormapName) : List RGBA :=
  let range := if data.bounds.maxZ - data.bounds.minZ = 0 then 1
               else data.bounds.maxZ - data.bounds.minZ
  (List.range data.pointCount).map (fun i =>
    let z := (data.positions.getD i (0, 0, 0)).2.2
    let t := (z - data.bounds.minZ) / range
    let c := sampleColormap cm t
    (c.1, c.2.1, c.2.2, 255))

/-- The running minimum of a JS loop over a buffer starting at `Infinity`
(`none` models the pristine infinite accumulator; empty input never reaches a
finite state). -/
def listMin : List Rat → Option Rat
  | [] => none
  | x :: xs => some (foldMin xs x)

/-- The running maximum starting at `-Infinity`, see `listMin`. -/
def listMax : List Rat → Option Rat
  | [] => none
  | x :: xs => some (foldMax xs x)

/-- The `intensity` branch of `colorizePoints` when an intensity buffer exists:
normalize by the observed min/max (`maxI - minI || 1`), sample, alpha `255`. -/
def intensityColors (data : PointCloudData) (cm : ColormapName) (ints : List Rat) : List RGBA :=
  let vals := (List.range data.pointCount).map (fun i => ints.getD i 0)
  let minI := (listMin vals).getD 0
  let maxI := (listMax vals).getD 0
  let range := if maxI - minI = 0 then 1 else maxI - minI
  (List.range data.pointCount).map (fun i =>
    let t := (ints.getD i 0 - minI) / range
    let c := sampleColormap cm t
    (c.1, c.2.1, c.2.2, 255))

/-- The `classification` branch of `colorizePoints` when a classification
buffer exists: palette lookup (unknown codes gray), alpha `0` exactly when the
code's visibility flag is explicitly `false` (the output array is zero
initialized, so a hidden point keeps `(0,0,0)` color channels). -/
def classificationColors (data : PointCloudData) (vis : Nat → Option Bool)
    (cls : List Nat) : List RGBA :=
  (List.range data.pointCount).map (fun i =>
    let code := cls.getD i 0
    let isVisible := vis code ≠ some false
    if isVisible then
      let c := (CLASSIFICATION_COLORS code).getD (180, 180, 180)
      (c.1, c.2.1, c.2.2, 255)
    else (0, 0, 0, 0))

/-- The `rgb` branch of `colorizePoints` when a source color buffer exists:
copy the stored RGBA entries and force alpha to `255`. -/
def rgbColors (data : PointCloudData) (cs : List RGBA) : List RGBA :=
  (List.range data.pointCount).map (fun i =>
    let c := cs.getD i (0, 0, 0, 0)
    (c.1, c.2.1, c.2.2.1, 255))

/-- Function `colorizePoints` from `colorize.ts`.  The source's `rgb` branch with no
stored colors executes `return colorizePoints(data, settings)` — a literal
self-call with unchanged arguments; the `fuel` argument makes that recursion
well-defined in the embedding (`none` = the call never returns). -/
def colorizePoints : Nat → PointCloudData → ViewSettings → Option (List RGBA)
  | 0, _, _ => none
  | Nat.succ fuel, data, settings =>
    match settings.colorScheme with
    | ColorScheme.elevation => some (elevationColors data settings.colormap)
    | ColorScheme.intensity =>
      match data.intensities with
      | none => some (fillSolidColor data.pointCount 180 180 180)
      | some ints => some (intensityColors data settings.colormap ints)
    | ColorScheme.classification =>
      match data.classifications with
      | none => some (fillSolidColor data.pointCount 180 180 180)
      | some cls => some (classificationColors data settings.classificationVisibility cls)
    | ColorScheme.rgb =>
      match data.colors with
      | some cs => some (rgbColors data cs)
      | none => colorizePoints fuel data settings

/-- C1 (code bug): with the `rgb` scheme and no stored colors,
`colorizePoints` calls itself with identical arguments, so no amount of fuel
produces a result — the call never terminates, instead of delegating to the
`elevation` scheme as specified. -/
theorem colorizePoints_rgb_fallback_diverges :
    ∀ (fuel : Nat) (data : PointCloudData) (settings : ViewSettings),
      settings.colorScheme = ColorScheme.rgb → data.colors = none →
      colorizePoints fuel data settings = none := by
  intro fuel
  induction fuel with
  | zero => intro data settings _ _; rfl
  | succ n ih =>
    intro data settings hs hc
    show colorizePoints (n + 1) data settings = none
    rw [colorizePoints, hs, hc]
    exact ih data settings hs hc

/-- A colorless `PointCloudData` for the C1 witness. -/
def dataNoColors : PointCloudData :=
  { positions := [(0, 0, 5)]
    coordinateOrigin := (0, 0, 0)
    colors := none
    intensities := none
    classifications := none
    pointCount := 1
    bounds := ⟨0, 0, 0, 0, 5, 5⟩ }

/-- Witness for C1: at a concrete colorless cloud under the `rgb` scheme, the
call exhausts any fuel (here 5) without returning. -/
theorem colorizePoints_rgb_fallback_diverges_witness :
    (ViewSettings.mk ColorScheme.rgb ColormapName.viridis (fun _ => none)).colorScheme =
      ColorScheme.rgb ∧
    dataNoColors.colors = none ∧
    colorizePoints 5 dataNoColors
      (ViewSettings.mk ColorScheme.rgb ColormapName.viridis (fun _ => none)) = none :=
  ⟨rfl, rfl,
   colorizePoints_rgb_fallback_diverges 5 dataNoColors
     (ViewSettings.mk ColorScheme.rgb ColormapName.viridis (fun _ => none)) rfl rfl⟩

/-- C7: colorizing a cloud that has a classification buffer under the
`classification` scheme returns (with one step of fuel) a buffer with exactly
`pointCount` RGBA entries — no point is removed — whose alpha byte is `0`
exactly for the points whose code has its visibility flag explicitly `false`,
and `255` for every other point. -/
theorem colorizePoints_classification_alpha (fuel : Nat) (data : PointCloudData)
    (settings : ViewSettings) (cls : List Nat)
    (hs : settings.colorScheme = ColorScheme.classification)
    (hc : data.classifications = some cls) :
    ∃ out, colorizePoints (fuel + 1) data settings = some out ∧
      out.length = data.pointCount ∧
      ∀ i < data.pointCount,
        (out.getD i (0, 0, 0, 0)).2.2.2 =
          (if settings.classificationVisibility (cls.getD i 0) = some false then 0
           else 255) := by
  refine ⟨classificationColors data settings.classificationVisibility cls, ?_, ?_, ?_⟩
  · show colorizePoints (fuel + 1) data settings = _
    rw [colorizePoints, hs, hc]
  · rw [classificationColors, List.length_map, List.length_range]
  · intro i hi
    rw [classificationColors, List.getD_eq_getElem?_getD, List.getElem?_map,
      List.getElem?_range hi]
    by_cases hvis : settings.classificationVisibility (cls[i]?.getD 0) = some false
    · simp [List.getD_eq_getElem?_getD, hvis]
    · simp [List.getD_eq_getElem?_getD, hvis]

/-- A cloud with two classified points (codes 2 and 6) for the C7 witness. -/
def dataClassified : PointCloudData :=
  { positions := [(0, 0, 1), (0, 0, 2)]
    coordinateOrigin := (0, 0, 0)
    colors := none
    intensities := none
    classifications := some [2, 6]
    pointCount := 2
    bounds := ⟨0, 0, 0, 0, 1, 2⟩ }

/-- Witness for C7: code 6 is explicitly hidden, code 2 visible. -/
theorem colorizePoints_classification_alpha_witness :
    (ViewSettings.mk ColorScheme.classification ColormapName.viridis
        (fun c => if c = 6 then some false else none)).colorScheme =
      ColorScheme.classification ∧
    dataClassified.classifications = some [2, 6] ∧
    ∃ out, colorizePoints 1 dataClassified
        (ViewSettings.mk ColorScheme.classification ColormapName.viridis
          (fun c => if c = 6 then some false else none)) = some out ∧
      out.length = dataClassified.pointCount ∧
      ∀ i < dataClassified.pointCount,
        (out.getD i (0, 0, 0, 0)).2.2.2 =
          (if (fun c => if c = 6 then some false else none) ([2, 6].getD i 0) = some false
           then 0 else 255) :=
  ⟨rfl, rfl,
   colorizePoints_classification_alpha 0 dataClassified
     (ViewSettings.mk ColorScheme.classification ColormapName.viridis
       (fun c => if c = 6 then some false else none)) [2, 6] rfl rfl⟩

/-- A profile sample returned by `getProfile` (`ProfilePoint` in `types.ts`). -/
structure ProfilePoint where
  distance : Rat
  elevation : Rat
  color : Int × Int × Int
  intensity : Rat
  classification : Nat
deriving DecidableEq

/-- The local equirectangular corridor frame computed at the top of
`getProfile`.  `cosDeg` injects `Math.cos(latDegrees * Math.PI / 180)` (the
degree-to-radian fold is part of the injected capability, since `π` is not
rational); `sqrtR` injects `Math.sqrt`. -/
structure CorridorFrame where
  x1 : Rat
  y1 : Rat
  dx : Rat
  dy : Rat
  lenSq : Rat
  len : Rat
  metersPerDegLng : Rat
  metersPerDegLat : Rat

/-- Lines 19-38 of `cross-section.ts`: meters-per-degree factors at the origin
latitude, endpoints converted to origin-relative meters, axis vector, length. -/
def corridorFrame (cosDeg sqrtR : Rat → Rat) (origin : Vec3)
    (s e : Rat × Rat) : CorridorFrame :=
  let ox := origin.1
  let oy := origin.2.1
  let cosLat := cosDeg oy
  let metersPerDegLat : Rat := 111320
  let metersPerDegLng := 111320 * cosLat
  let x1 := (s.1 - ox) * metersPerDegLng
  let y1 := (s.2 - oy) * metersPerDegLat
  let x2 := (e.1 - ox) * metersPerDegLng
  let y2 := (e.2 - oy) * metersPerDegLat
  let dx := x2 - x1
  let dy := y2 - y1
  let lenSq := dx * dx + dy * dy
  { x1 := x1, y1 := y1, dx := dx, dy := dy, lenSq := lenSq, len := sqrtR lenSq
    metersPerDegLng := metersPerDegLng, metersPerDegLat := metersPerDegLat }

/-- The vector from the corridor start to point `i` in the local meter frame
(`vx`, `vy` in the source loop). -/
def pointLocal (data : PointCloudData) (F : CorridorFrame) (i : Nat) : Rat × Rat :=
  let p := data.positions.getD i (0, 0, 0)
  (p.1 * F.metersPerDegLng - F.x1, p.2.1 * F.metersPerDegLat - F.y1)

/-- The signed distance of point `i` along the corridor axis: projection of
`(vx, vy)` onto the unit vector `u = (dx/len, dy/len)`. -/
def pointDist (data : PointCloudData) (F : CorridorFrame) (i : Nat) : Rat :=
  let v := pointLocal data F i
  v.1 * (F.dx / F.len) + v.2 * (F.dy / F.len)

/-- The signed perpendicular offset of point `i`: projection of `(vx, vy)` onto
the normal `n = (-uy, ux)`. -/
def pointOffset (data : PointCloudData) (F : CorridorFrame) (i : Nat) : Rat :=
  let v := pointLocal data F i
  v.1 * (-(F.dy) / F.len) + v.2 * (F.dx / F.len)

/-- The `ProfilePoint` pushed for a retained point `i`, with the documented
defaults for absent optional buffers. -/
def mkProfilePoint (data : PointCloudData) (F : CorridorFrame) (i : Nat) : ProfilePoint :=
  { distance := pointDist data F i
    elevation := (data.positions.getD i (0, 0, 0)).2.2
    color :=
      match data.colors with
      | some cs =>
        let c := cs.getD i (0, 0, 0, 0)
        (c.1, c.2.1, c.2.2.1)
      | none => (255, 255, 255)
    intensity :=
      match data.intensities with
      | some l => l.getD i 0
      | none => 0
    classification :=
      match data.classifications with
      | some l => l.getD i 0
      | none => 0 }

/-- Function `getProfile` from `cross-section.ts`: build the corridor frame, return `[]`
for a zero-length axis, otherwise retain every point with
`0 ≤ dist ≤ len ∧ |offset| ≤ width/2` and sort by distance ascending. -/
def getProfile (cosDeg sqrtR : Rat → Rat) (data : PointCloudData)
    (s e : Rat × Rat) (width : Rat) : List ProfilePoint :=
  let F := corridorFrame cosDeg sqrtR data.coordinateOrigin s e
  if F.len = 0 then []
  else
    let halfWidth := width / 2
    let profile := (List.range data.pointCount).filterMap (fun i =>
      if 0 ≤ pointDist data F i ∧ pointDist data F i ≤ F.len ∧
          |pointOffset data F i| ≤ halfWidth then
        some (mkProfilePoint data F i)
      else none)
    profile.mergeSort (fun a b => decide (a.distance ≤ b.distance))

/-- C8: a corridor whose start and end coincide has a zero-length axis
(`len = sqrt 0 = 0`), and `getProfile` returns the empty sequence rather than
raising an error. -/
theorem getProfile_degenerate (cosDeg sqrtR : Rat → Rat) (data : PointCloudData)
    (s : Rat × Rat) (width : Rat) (h0 : sqrtR 0 = 0) :
    getProfile cosDeg sqrtR data s s width = [] := by
  have hF : (corridorFrame cosDeg sqrtR data.coordinateOrigin s s).len = 0 := by
    simp [corridorFrame, h0]
  simp [getProfile, hF]

/-- Witness for C8 at a concrete cloud and coincident endpoints. -/
theorem getProfile_degenerate_witness :
    (fun _ : Rat => (0 : Rat)) 0 = 0 ∧
    getProfile (fun _ => 1) (fun _ => 0) dataNoColors (0, 0) (0, 0) 2 = [] :=
  ⟨rfl, getProfile_degenerate (fun _ => 1) (fun _ => 0) dataNoColors (0, 0) 2 rfl⟩

/-- C6: for a non-degenerate corridor (`len ≠ 0`), `getProfile` returns exactly
the points whose axis projection `dist` satisfies `0 ≤ dist ≤ len` and whose
perpendicular projection satisfies `|offset| ≤ width/2`, and the returned
sequence is sorted by distance ascending. -/
theorem getProfile_spec (cosDeg sqrtR : Rat → Rat) (data : PointCloudData)
    (s e : Rat × Rat) (width : Rat)
    (hlen : (corridorFrame cosDeg sqrtR data.coordinateOrigin s e).len ≠ 0) :
    (∀ p, p ∈ getProfile cosDeg sqrtR data s e width ↔
      ∃ i, i < data.pointCount ∧
        0 ≤ pointDist data (corridorFrame cosDeg sqrtR data.coordinateOrigin s e) i ∧
        pointDist data (corridorFrame cosDeg sqrtR data.coordinateOrigin s e) i ≤
          (corridorFrame cosDeg sqrtR data.coordinateOrigin s e).len ∧
        |pointOffset data (corridorFrame cosDeg sqrtR data.coordinateOrigin s e) i| ≤
          width / 2 ∧
        p = mkProfilePoint data (corridorFrame cosDeg sqrtR data.coordinateOrigin s e) i) ∧
    (getProfile cosDeg sqrtR data s e width).Pairwise
      (fun a b => a.distance ≤ b.distance) := by
  have hunfold : getProfile cosDeg sqrtR data s e width =
      ((List.range data.pointCount).filterMap (fun i =>
        if 0 ≤ pointDist data (corridorFrame cosDeg sqrtR data.coordinateOrigin s e) i ∧
            pointDist data (corridorFrame cosDeg sqrtR data.coordinateOrigin s e) i ≤
              (corridorFrame cosDeg sqrtR data.coordinateOrigin s e).len ∧
            |pointOffset data (corridorFrame cosDeg sqrtR data.coordinateOrigin s e) i| ≤
              width / 2 then
          some (mkProfilePoint data (corridorFrame cosDeg sqrtR data.coordinateOrigin s e) i)
        else none)).mergeSort (fun a b => decide (a.distance ≤ b.distance)) := by
    simp only [getProfile, hlen, if_false, ite_false]
  constructor
  · intro p
    rw [hunfold, List.mem_mergeSort, List.mem_filterMap]
    constructor
    · rintro ⟨i, hi, hsome⟩
      rw [List.mem_range] at hi
      rcases Option.ite_none_right_eq_some.mp hsome with ⟨⟨h1, h2, h3⟩, heq⟩
      exact ⟨i, hi, h1, h2, h3, (Option.some.inj heq).symm⟩
    · rintro ⟨i, hi, h1, h2, h3, rfl⟩
      refine ⟨i, List.mem_range.mpr hi, ?_⟩
      rw [if_pos ⟨h1, h2, h3⟩]
  · rw [hunfold]
    have hp := @List.sorted_mergeSort ProfilePoint
      (fun a b : ProfilePoint => decide (a.distance ≤ b.distance))
      (by
        intro a b c hab hbc
        simp only [decide_eq_true_eq] at hab hbc ⊢
        exact le_trans hab hbc)
      (by
        intro a b
        simp only [Bool.or_eq_true, decide_eq_true_eq]
        exact le_total _ _)
      ((List.range data.pointCount).filterMap (fun i =>
        if 0 ≤ pointDist data (corridorFrame cosDeg sqrtR data.coordinateOrigin s e) i ∧
            pointDist data (corridorFrame cosDeg sqrtR data.coordinateOrigin s e) i ≤
              (corridorFrame cosDeg sqrtR data.coordinateOrigin s e).len ∧
            |pointOffset data (corridorFrame cosDeg sqrtR data.coordinateOrigin s e) i| ≤
              width / 2 then
          some (mkProfilePoint data (corridorFrame cosDeg sqrtR data.coordinateOrigin s e) i)
        else none))
    exact hp.imp (fun h => of_decide_eq_true h)

/-- Witness for C6: a one-point cloud inside a 2 m corridor of length 2 m (the
injected square root is exact on the arising values). -/
theorem getProfile_spec_witness :
    (corridorFrame (fun _ => 1) (fun q => if q = 4 then 2 else 0)
        dataNoColors.coordinateOrigin (0, 0) (1/55660, 0)).len ≠ 0 ∧
    (getProfile (fun _ => 1) (fun q => if q = 4 then 2 else 0) dataNoColors
        (0, 0) (1/55660, 0) 2).Pairwise (fun a b => a.distance ≤ b.distance) :=
  ⟨by norm_num [corridorFrame, dataNoColors],
   (getProfile_spec (fun _ => 1) (fun q => if q = 4 then 2 else 0) dataNoColors
     (0, 0) (1/55660, 0) 2 (by norm_num [corridorFrame, dataNoColors])).2⟩

/-- C10: when the optional buffers are all absent, every returned profile
point carries the documented defaults: color `(255,255,255)`, intensity `0`,
classification `0`. -/
theorem getProfile_defaults (cosDeg sqrtR : Rat → Rat) (data : PointCloudData)
    (s e : Rat × Rat) (width : Rat)
    (hcol : data.colors = none) (hint : data.intensities = none)
    (hcls : data.classifications = none) :
    ∀ p ∈ getProfile cosDeg sqrtR data s e width,
      p.color = (255, 255, 255) ∧ p.intensity = 0 ∧ p.classification = 0 := by
  intro p hp
  by_cases hlen : (corridorFrame cosDeg sqrtR data.coordinateOrigin s e).len = 0
  · simp [getProfile, hlen] at hp
  · simp only [getProfile, hlen, if_false, ite_false, List.mem_mergeSort,
      List.mem_filterMap] at hp
    rcases hp with ⟨i, -, hsome⟩
    rcases Option.ite_none_right_eq_some.mp hsome with ⟨-, heq⟩
    rw [← Option.some.inj heq]
    simp [mkProfilePoint, hcol, hint, hcls]

/-- Witness for C10 at a concrete bufferless cloud whose profile contains its
single point. -/
theorem getProfile_defaults_witness :
    dataNoColors.colors = none ∧ dataNoColors.intensities = none ∧
    dataNoColors.classifications = none ∧
    ∀ p ∈ getProfile (fun _ => 1) (fun q => if q = 4 then 2 else 0) dataNoColors
        (0, 0) (1/55660, 0) 2,
      p.color = (255, 255, 255) ∧ p.intensity = 0 ∧ p.classification = 0 :=
  ⟨rfl, rfl, rfl,
   getProfile_defaults (fun _ => 1) (fun q => if q = 4 then 2 else 0) dataNoColors
     (0, 0) (1/55660, 0) 2 rfl rfl rfl⟩
